import Mathlib

/-!
Shallow embedding of `src/components/middle/ReactorListModal.tsx` (azozello/telegram-tt):
the reactor-list overlay's aggregation, filtering, pagination-trigger and lifecycle
logic. Pure derivations (`userIds`, `allReactions`, `canShowFilters`, the rendered
filter tabs) are Lean functions; the event-driven part (lifecycle effect, close handling,
infinite-scroll fetch triggering) is a step function on an explicit state type emitting
dispatched actions. Helpers imported by the component but absent from the snapshot
(`unique` from `util/iteratees`, the `useInfiniteScroll` hook) are modelled from the
spec, marked as such in their doc comments.
-/

namespace ReactorList

/-- One reactor record in `reactors.reactions`: the reacting user's id and the reaction
kind it carries (spec: ReactionEntry). -/
structure ReactionEntry where
  userId : String
  reaction : String
deriving DecidableEq, Repr

/-- The `reactors` prop (ApiMessage.reactors): total count, the entry list loaded so
far, and the optional next-page cursor `nextOffset`. -/
structure ApiReactors where
  count : Nat
  reactions : List ReactionEntry
  nextOffset : Option String
deriving DecidableEq, Repr

/-- One aggregate per-kind record in `reactions.results`: a reaction kind and its
total count. -/
structure ReactionCount where
  reaction : String
  count : Nat
deriving DecidableEq, Repr

/-- The `reactions` prop (ApiMessage.reactions): the aggregate per-kind results. -/
structure ApiReactions where
  results : List ReactionCount
deriving DecidableEq, Repr

/-- Line 30: `const MIN_REACTIONS_COUNT_FOR_FILTERS = 10`. -/
def MIN_REACTIONS_COUNT_FOR_FILTERS : Nat := 10

/-- Modelled from the spec: accumulator form of `unique` from `util/iteratees`
(imported at line 17; the file is not in the snapshot). The spec (section 3,
CandidateList) requires removing duplicate ids "while preserving first occurrence
order"; `seen` accumulates the ids already emitted. -/
def uniqueAux (seen : List String) : List String → List String
  | [] => []
  | x :: xs => if x ∈ seen then uniqueAux seen xs else x :: uniqueAux (x :: seen) xs

/-- Modelled from the spec: `unique` from `util/iteratees` — deduplication keeping each
element's first occurrence, preserving order. -/
def unique (l : List String) : List String := uniqueAux [] l

/-- Truthiness of a JS `string | undefined` value: `undefined` and the empty string are
falsy, every other string is truthy (used by `if (chosenTab)` at line 106). -/
def strTruthy : Option String → Bool
  | none => false
  | some s => s != ""

/-- Lines 105-110, `userIds`. With a truthy `chosenTab` it is
`reactors?.reactions.filter((l) => l.reaction === chosenTab).map((l) => l.userId)`
(so `none` when `reactors` is absent); otherwise it is
`unique(reactors?.reactions.map((l) => l.userId).concat(seenByUserIds || []) || [])`,
where optional chaining collapses the whole concatenation to `[]` when `reactors` is
absent. -/
def userIds (chosenTab : Option String) (reactors : Option ApiReactors)
    (seenByUserIds : Option (List String)) : Option (List String) :=
  if strTruthy chosenTab then
    reactors.map (fun r =>
      (r.reactions.filter (fun l => l.reaction == chosenTab.getD "")).map
        (fun l => l.userId))
  else
    some (unique (match reactors with
      | none => []
      | some r => r.reactions.map (fun l => l.userId) ++ seenByUserIds.getD []))

/-- Lines 101-103, `allReactions`: the distinct reaction kinds among the loaded reactor
entries, `unique(reactors.reactions.map((l) => l.reaction))`, or `[]` when `reactors`
is absent. -/
def allReactions (reactors : Option ApiReactors) : List String :=
  match reactors with
  | some r => unique (r.reactions.map (fun l => l.reaction))
  | none => []

/-- Lines 63-64, `canShowFilters`:
`reactors && reactions && reactors.count >= MIN_REACTIONS_COUNT_FOR_FILTERS &&
reactions.results.length > 1`, as a boolean. -/
def canShowFilters (reactors : Option ApiReactors) (reactions : Option ApiReactions) :
    Bool :=
  match reactors, reactions with
  | some rs, some rc =>
    decide (MIN_REACTIONS_COUNT_FOR_FILTERS ≤ rs.count)
      && decide (1 < rc.results.length)
  | _, _ => false

/-- A rendered filter tab: the leading "all" button (lines 130-139) or one per-kind
button (lines 140-155). -/
inductive FilterTab where
  | all : FilterTab
  | kind (reaction : String) : FilterTab
deriving DecidableEq, Repr

/-- Lines 128-156: the tab row is rendered only when `canShowFilters` holds, and then
consists of the "all" button followed by one button per element of `allReactions`. -/
def renderedFilterTabs (reactors : Option ApiReactors)
    (reactions : Option ApiReactions) : List FilterTab :=
  if canShowFilters reactors reactions then
    FilterTab.all :: (allReactions reactors).map FilterTab.kind
  else []

/-- Line 113, third argument of `useInfiniteScroll`:
`reactors && reactors.nextOffset === undefined` — the scroll is disabled exactly when
reactor data is present and carries no next-page cursor. -/
def infiniteScrollIsDisabled (reactors : Option ApiReactors) : Bool :=
  match reactors with
  | none => false
  | some r => r.nextOffset.isNone

/-- An action dispatched to the surrounding application: the `loadReactors` fetch
(lines 94-99), `openChat` navigation (line 80), or the close notification (line 82). -/
inductive Action where
  | loadReactors (chatId : Option String) (messageId : Option Nat) : Action
  | openChat (id : String) : Action
  | closeReactorListModal : Action
deriving DecidableEq, Repr

/-- The load direction passed to `getMore` (line 117). -/
inductive LoadMoreDirection where
  | Backwards : LoadMoreDirection
  | Forwards : LoadMoreDirection
deriving DecidableEq, Repr

/-- The component's state for one render: the `chatId`/`messageId` props, the `isOpen`
prop, the `isClosing` flag (line 61), `chosenTab` (line 62), the `chatIdRef` pending
navigation target (line 65), and the `reactors`/`reactions`/`seenByUserIds` props fed
from the store. -/
structure ModalState where
  chatId : Option String
  messageId : Option Nat
  isOpen : Bool
  isClosing : Bool
  chosenTab : Option String
  chatIdRef : Option String
  reactors : Option ApiReactors
  reactions : Option ApiReactions
  seenByUserIds : Option (List String)
deriving DecidableEq, Repr

/-- Lines 67-76, the lifecycle useEffect: when open and not closing, clear `chatIdRef`;
when closing and no longer open, stop closing and reset `chosenTab`. -/
def lifecycleEffect (s : ModalState) : ModalState :=
  let s1 := if s.isOpen && !s.isClosing then { s with chatIdRef := none } else s
  if s1.isClosing && !s1.isOpen then { s1 with isClosing := false, chosenTab := none }
  else s1

/-- Lines 94-99, `handleLoadMore`: dispatch `loadReactors` with the owning chat and
message ids. -/
def handleLoadMore (s : ModalState) : List Action :=
  [Action.loadReactors s.chatId s.messageId]

/-- Modelled from the spec: `getMore` of the `useInfiniteScroll` hook (imported at
line 13; the hook's file is not in the snapshot). Spec 4.3: `requestMore` issues a
backward-direction load only while `hasMore` holds, and `hasMore` is false precisely
when the next-page cursor is absent — i.e. exactly when the hook's `isDisabled`
argument (line 113) is true. Only the backward load callback is supplied. -/
def getMore (s : ModalState) (dir : LoadMoreDirection) : List Action :=
  if infiniteScrollIsDisabled s.reactors then []
  else
    match dir with
    | LoadMoreDirection.Backwards => handleLoadMore s
    | LoadMoreDirection.Forwards => []

/-- Lines 78-83, `handleCloseAnimationEnd`: if a navigation target was captured, open
that chat, then emit the close notification. -/
def closeAnimationEndActions (s : ModalState) : List Action :=
  (match s.chatIdRef with
   | some id => [Action.openChat id]
   | none => []) ++ [Action.closeReactorListModal]

/-- An event driving the component: clicking a reactor entry (lines 89-92), requesting
close (lines 85-87, close button or overlay chrome), clicking a filter tab
(lines 135 and 149), the infinite scroll approaching its end (line 164), the initial
mount effect (lines 116-118), the close animation finishing (line 126), an `isOpen`
prop change, or a fetched reactors page arriving through the store. -/
inductive Event where
  | clickEntry (userId : String) : Event
  | requestClose : Event
  | selectTab (tab : Option String) : Event
  | scrollNearEnd : Event
  | mount : Event
  | closeAnimationEnd : Event
  | setOpen (b : Bool) : Event
  | receivePage (r : ApiReactors) : Event
deriving DecidableEq, Repr

/-- True exactly for `Event.receivePage` events. -/
def isReceivePage : Event → Bool
  | Event.receivePage _ => true
  | _ => false

/-- True exactly for `Action.loadReactors` actions. -/
def isLoadReactors : Action → Bool
  | Action.loadReactors _ _ => true
  | _ => false

/-- The state change and dispatched actions of one event, before the lifecycle effect
re-runs: entry clicks capture the target and start closing; tab clicks only set
`chosenTab`, and only when the filter row is rendered — the tab buttons and their
onClick handlers exist solely inside the `canShowFilters && (...)` block
(lines 128-156), so when `canShowFilters` is false there is no button to click and a
selectTab event has no effect; scroll-near-end and the mount effect call `getMore`
with direction Backwards; the close-animation end emits its actions; prop changes
update the state. -/
def stepRaw (s : ModalState) : Event → ModalState × List Action
  | Event.clickEntry u => ({ s with chatIdRef := some u, isClosing := true }, [])
  | Event.requestClose => ({ s with isClosing := true }, [])
  | Event.selectTab t =>
    (if canShowFilters s.reactors s.reactions then { s with chosenTab := t } else s,
      [])
  | Event.scrollNearEnd => (s, getMore s LoadMoreDirection.Backwards)
  | Event.mount => (s, getMore s LoadMoreDirection.Backwards)
  | Event.closeAnimationEnd => (s, closeAnimationEndActions s)
  | Event.setOpen b => ({ s with isOpen := b }, [])
  | Event.receivePage r => ({ s with reactors := some r }, [])

/-- One full step: the event's own transition followed by the lifecycle effect of the
re-render it causes. -/
def step (s : ModalState) (e : Event) : ModalState × List Action :=
  (lifecycleEffect (stepRaw s e).1, (stepRaw s e).2)

/-- Run a sequence of events, concatenating the dispatched actions. -/
def runEvents (s : ModalState) : List Event → ModalState × List Action
  | [] => (s, [])
  | e :: es =>
    ((runEvents (step s e).1 es).1, (step s e).2 ++ (runEvents (step s e).1 es).2)

/-- The states an event sequence passes through, the initial one included. -/
def statesOf (s : ModalState) : List Event → List ModalState
  | [] => [s]
  | e :: es => s :: statesOf (step s e).1 es

theorem mem_uniqueAux (a : String) :
    ∀ (l seen : List String), a ∈ uniqueAux seen l ↔ a ∈ l ∧ a ∉ seen := by
  intro l
  induction l with
  | nil => intro seen; simp [uniqueAux]
  | cons x xs ih =>
    intro seen
    by_cases hx : x ∈ seen
    · simp only [uniqueAux, if_pos hx, ih, List.mem_cons]
      constructor
      · rintro ⟨h1, h2⟩; exact ⟨Or.inr h1, h2⟩
      · rintro ⟨h1 | h1, h2⟩
        · exact absurd (h1 ▸ hx) h2
        · exact ⟨h1, h2⟩
    · simp only [uniqueAux, if_neg hx, List.mem_cons, ih]
      by_cases hax : a = x
      · subst hax; simp [hx]
      · simp [hax]

theorem nodup_uniqueAux : ∀ (l seen : List String), (uniqueAux seen l).Nodup := by
  intro l
  induction l with
  | nil => intro seen; simp [uniqueAux]
  | cons x xs ih =>
    intro seen
    by_cases hx : x ∈ seen
    · simpa [uniqueAux, hx] using ih seen
    · simp only [uniqueAux, if_neg hx, List.nodup_cons]
      refine ⟨fun hmem => ?_, ih (x :: seen)⟩
      rcases (mem_uniqueAux x xs (x :: seen)).1 hmem with ⟨_, habs⟩
      exact habs (List.mem_cons_self x seen)

theorem sublist_uniqueAux :
    ∀ (l seen : List String), (uniqueAux seen l).Sublist l := by
  intro l
  induction l with
  | nil => intro seen; simp [uniqueAux]
  | cons x xs ih =>
    intro seen
    by_cases hx : x ∈ seen
    · simpa [uniqueAux, hx] using (ih seen).cons x
    · simpa [uniqueAux, hx] using (ih (x :: seen)).cons₂ x

theorem mem_unique (a : String) (l : List String) : a ∈ unique l ↔ a ∈ l := by
  simp [unique, mem_uniqueAux]

theorem nodup_unique (l : List String) : (unique l).Nodup := nodup_uniqueAux l []

theorem sublist_unique (l : List String) : (unique l).Sublist l :=
  sublist_uniqueAux l []

/-- The spec's worked example (section 8): entries
[(U1, heart), (U2, thumbs-up), (U1, thumbs-up)] with total count 3 and no further
page. -/
def exampleReactors : ApiReactors :=
  { count := 3
    reactions := [{ userId := "U1", reaction := "❤" },
                  { userId := "U2", reaction := "👍" },
                  { userId := "U1", reaction := "👍" }]
    nextOffset := none }

/-- Definition following the spec's words, for comparison with `userIds` (claim C1):
with a chosen kind, the projection is "the ordered subsequence of ids that have ≥1
ReactionEntry matching ActiveFilter's kind, preserving CandidateList's relative
order" — the unfiltered candidate list filtered to ids owning a matching entry. -/
def specFilterProjection (rs : ApiReactors) (seen : List String) (tab : String) :
    List String :=
  (unique (rs.reactions.map (fun l => l.userId) ++ seen)).filter
    (fun uid => rs.reactions.any (fun e => e.userId == uid && e.reaction == tab))

/-- C2: with reactor data present and no chosen tab, the candidate list is exactly
`unique` of the entries' user ids (in source order) concatenated with the seen ids:
it has no duplicates, it is a sublist of the concatenation (so relative first-occurrence
order is preserved), and it contains exactly the ids of the concatenation. Determinism
is inherent: `userIds` is a pure function of its arguments. -/
theorem candidateList_dedup_first_order (rs : ApiReactors) (seen : List String) :
    userIds none (some rs) (some seen)
      = some (unique (rs.reactions.map (fun l => l.userId) ++ seen))
    ∧ (unique (rs.reactions.map (fun l => l.userId) ++ seen)).Nodup
    ∧ (unique (rs.reactions.map (fun l => l.userId) ++ seen)).Sublist
        (rs.reactions.map (fun l => l.userId) ++ seen)
    ∧ ∀ a, a ∈ unique (rs.reactions.map (fun l => l.userId) ++ seen)
        ↔ a ∈ rs.reactions.map (fun l => l.userId) ++ seen := by
  refine ⟨rfl, nodup_unique _, sublist_unique _, fun a => mem_unique a _⟩

/-- C9: while no reactor page has been received, the unfiltered candidate list is empty
even for a nonempty seen set — optional chaining short-circuits the seen-id
concatenation away when `reactors` is absent. -/
theorem seen_only_empty_without_reactors (seen : List String) (_h : seen ≠ []) :
    userIds none none (some seen) = some [] := rfl

/-- Witness for `seen_only_empty_without_reactors` at seen = [U3]. -/
theorem seen_only_empty_without_reactors_witness :
    (["U3"] : List String) ≠ [] ∧ userIds none none (some ["U3"]) = some [] :=
  ⟨by decide, seen_only_empty_without_reactors ["U3"] (by decide)⟩

/-- C4: a user id that occurs in the seen set but in no reaction entry is absent from
the filtered projection, for every chosen (truthy) filter kind. -/
theorem seen_only_excluded_from_filter (rs : ApiReactors) (seen : List String)
    (tab uid : String) (htab : tab ≠ "") (_hseen : uid ∈ seen)
    (hnone : ∀ e ∈ rs.reactions, e.userId ≠ uid) (out : List String)
    (hout : userIds (some tab) (some rs) (some seen) = some out) :
    uid ∉ out := by
  simp only [userIds, strTruthy, bne_iff_ne, ne_eq, htab, not_false_eq_true,
    if_true, Option.map_some', Option.some.injEq, Option.getD_some] at hout
  subst hout
  intro hmem
  rcases List.mem_map.1 hmem with ⟨e, he, huid⟩
  rcases List.mem_filter.1 he with ⟨hein, _⟩
  exact hnone e hein huid

/-- Witness for `seen_only_excluded_from_filter` on the spec's worked example with
uid = U3 and the thumbs-up tab. -/
theorem seen_only_excluded_from_filter_witness :
    ("👍" : String) ≠ "" ∧ ("U3" : String) ∈ ["U3"]
    ∧ (∀ e ∈ exampleReactors.reactions, e.userId ≠ "U3")
    ∧ userIds (some "👍") (some exampleReactors) (some ["U3"]) = some ["U2", "U1"]
    ∧ ("U3" : String) ∉ ["U2", "U1"] :=
  ⟨by decide, by decide, by decide, by decide,
    seen_only_excluded_from_filter exampleReactors ["U3"] "👍" "U3" (by decide)
      (by decide) (by decide) ["U2", "U1"] (by decide)⟩

/-- C1 counterexample: on the spec's worked example with the thumbs-up filter, the code
projects [U2, U1] — the matching entries in source order — while the claim requires the
CandidateList-ordered subsequence [U1, U2]; the two differ. -/
theorem filtered_projection_order_counterexample :
    userIds (some "👍") (some exampleReactors) (some ["U3"]) = some ["U2", "U1"]
    ∧ specFilterProjection exampleReactors ["U3"] "👍" = ["U1", "U2"]
    ∧ userIds (some "👍") (some exampleReactors) (some ["U3"])
        ≠ some (specFilterProjection exampleReactors ["U3"] "👍") := by
  refine ⟨by decide, by decide, by decide⟩

/-- C1 (amended): with a truthy chosen tab and reactor data present, the projection is
the user ids of the entries whose kind equals the tab, in entry source order (not
CandidateList first-occurrence order, and without deduplication); its members are
exactly the ids with at least one entry of the chosen kind, so seen-only ids never
appear. -/
theorem filtered_projection_entry_order (rs : ApiReactors)
    (seen : Option (List String)) (tab : String) (htab : tab ≠ "") :
    userIds (some tab) (some rs) seen
      = some ((rs.reactions.filter (fun l => l.reaction == tab)).map
          (fun l => l.userId))
    ∧ ∀ uid,
        uid ∈ (rs.reactions.filter (fun l => l.reaction == tab)).map
            (fun l => l.userId)
          ↔ ∃ e, e ∈ rs.reactions ∧ e.userId = uid ∧ e.reaction = tab := by
  constructor
  · have htr : strTruthy (some tab) = true := by simp [strTruthy, htab]
    rw [userIds, htr]
    simp
  · intro uid
    constructor
    · intro hmem
      rcases List.mem_map.1 hmem with ⟨e, he, huid⟩
      rcases List.mem_filter.1 he with ⟨hein, hkind⟩
      exact ⟨e, hein, huid, by simpa using hkind⟩
    · rintro ⟨e, hein, huid, hkind⟩
      exact List.mem_map.2 ⟨e, List.mem_filter.2 ⟨hein, by simpa using hkind⟩, huid⟩

/-- Witness for `filtered_projection_entry_order` on the spec's worked example. -/
theorem filtered_projection_entry_order_witness :
    ("👍" : String) ≠ ""
    ∧ (userIds (some "👍") (some exampleReactors) (some ["U3"])
        = some ((exampleReactors.reactions.filter
            (fun l => l.reaction == "👍")).map (fun l => l.userId))
      ∧ ∀ uid,
          uid ∈ (exampleReactors.reactions.filter
              (fun l => l.reaction == "👍")).map (fun l => l.userId)
            ↔ ∃ e, e ∈ exampleReactors.reactions ∧ e.userId = uid
                ∧ e.reaction = "👍") :=
  ⟨by decide,
    filtered_projection_entry_order exampleReactors (some ["U3"]) "👍" (by decide)⟩

theorem lifecycleEffect_chosenTab_none (s : ModalState) (h : s.chosenTab = none) :
    (lifecycleEffect s).chosenTab = none := by
  obtain ⟨a, b, o, c, t, ref, r, rc, sn⟩ := s
  simp only at h
  subst h
  cases o <;> cases c <;> simp [lifecycleEffect]

theorem step_keeps_chosenTab_absent (s : ModalState) (e : Event)
    (h : s.chosenTab = none)
    (hbelow : canShowFilters s.reactors s.reactions = false) :
    (step s e).1.chosenTab = none := by
  cases e
  case selectTab t =>
    show (lifecycleEffect
        (if canShowFilters s.reactors s.reactions then { s with chosenTab := t }
         else s)).chosenTab = none
    rw [hbelow]
    simpa using lifecycleEffect_chosenTab_none s h
  all_goals exact lifecycleEffect_chosenTab_none _ (by simpa [stepRaw] using h)

theorem chosenTab_stays_absent_below (s : ModalState) (es : List Event)
    (h0 : s.chosenTab = none)
    (hbelow : ∀ t ∈ statesOf s es, canShowFilters t.reactors t.reactions = false) :
    (runEvents s es).1.chosenTab = none := by
  induction es generalizing s with
  | nil => simpa [runEvents] using h0
  | cons e es ih =>
    have hs : canShowFilters s.reactors s.reactions = false :=
      hbelow s (by simp [statesOf])
    have h1 : (step s e).1.chosenTab = none := step_keeps_chosenTab_absent s e h0 hs
    have hb2 : ∀ t ∈ statesOf (step s e).1 es,
        canShowFilters t.reactors t.reactions = false := by
      intro t ht
      exact hbelow t (by simp [statesOf, ht])
    simpa [runEvents] using ih (step s e).1 h1 hb2

/-- C6: assuming the aggregate results list its kinds without repetition (it is a
per-kind aggregate), the filter row is offered exactly when both data props are present,
the total reactor count reaches MIN_REACTIONS_COUNT_FOR_FILTERS and more than one
distinct kind occurs in the aggregate results; when not offered, no tab is rendered;
when offered, the tabs are the "all" option followed by exactly one tab per distinct
loaded reaction kind; and while the data stays below either bound no tab button exists
to click, so from its initial absent value `chosenTab` stays absent over every event
sequence whose states all have `canShowFilters` false. -/
theorem filter_tabs_threshold (rs : ApiReactors) (rc : ApiReactions)
    (hnd : (rc.results.map (fun l => l.reaction)).Nodup) :
    (canShowFilters (some rs) (some rc) = true
      ↔ MIN_REACTIONS_COUNT_FOR_FILTERS ≤ rs.count
        ∧ 1 < (rc.results.map (fun l => l.reaction)).dedup.length)
    ∧ (canShowFilters (some rs) (some rc) = false
        → renderedFilterTabs (some rs) (some rc) = [])
    ∧ (canShowFilters (some rs) (some rc) = true
        → renderedFilterTabs (some rs) (some rc)
            = FilterTab.all :: (allReactions (some rs)).map FilterTab.kind
          ∧ (allReactions (some rs)).Nodup)
    ∧ (∀ (s : ModalState) (es : List Event), s.chosenTab = none
        → (∀ t ∈ statesOf s es, canShowFilters t.reactors t.reactions = false)
        → (runEvents s es).1.chosenTab = none) := by
  have hded : (rc.results.map (fun l => l.reaction)).dedup
      = rc.results.map (fun l => l.reaction) := List.Nodup.dedup hnd
  refine ⟨?_, fun hfalse => ?_, fun htrue => ?_, ?_⟩
  · simp [canShowFilters, hded]
  · simp [renderedFilterTabs, hfalse]
  · refine ⟨by simp [renderedFilterTabs, htrue], ?_⟩
    simp only [allReactions]
    exact nodup_unique _
  · exact chosenTab_stays_absent_below

/-- Concrete input for the C6 witness: ten total reactions, one loaded entry. -/
def exampleReactorsTen : ApiReactors :=
  { count := 10
    reactions := [{ userId := "U1", reaction := "❤" }]
    nextOffset := some "off1" }

/-- Concrete aggregate results for the C6 and C10 witnesses: two distinct kinds. -/
def exampleAggregates : ApiReactions :=
  { results := [{ reaction := "❤", count := 9 }, { reaction := "👍", count := 1 }] }

/-- Witness for `filter_tabs_threshold` on a ten-reaction, two-kind aggregate. -/
theorem filter_tabs_threshold_witness :
    (exampleAggregates.results.map (fun l => l.reaction)).Nodup
    ∧ ((canShowFilters (some exampleReactorsTen) (some exampleAggregates) = true
        ↔ MIN_REACTIONS_COUNT_FOR_FILTERS ≤ exampleReactorsTen.count
          ∧ 1 < (exampleAggregates.results.map (fun l => l.reaction)).dedup.length)
      ∧ (canShowFilters (some exampleReactorsTen) (some exampleAggregates) = false
          → renderedFilterTabs (some exampleReactorsTen) (some exampleAggregates) = [])
      ∧ (canShowFilters (some exampleReactorsTen) (some exampleAggregates) = true
          → renderedFilterTabs (some exampleReactorsTen) (some exampleAggregates)
              = FilterTab.all
                :: (allReactions (some exampleReactorsTen)).map FilterTab.kind
            ∧ (allReactions (some exampleReactorsTen)).Nodup)
      ∧ (∀ (s : ModalState) (es : List Event), s.chosenTab = none
          → (∀ t ∈ statesOf s es, canShowFilters t.reactors t.reactions = false)
          → (runEvents s es).1.chosenTab = none)) :=
  ⟨by decide, filter_tabs_threshold exampleReactorsTen exampleAggregates (by decide)⟩

/-- C10: the tab row is derived from the kinds of the loaded reactor entries, not from
the aggregate per-kind results: a kind listed in the aggregate results but carried by
no loaded entry is absent from `allReactions` and gets no rendered tab. -/
theorem tabs_only_for_loaded_kinds (rs : ApiReactors) (rc : ApiReactions) (k : String)
    (_hagg : k ∈ rc.results.map (fun l => l.reaction))
    (hnl : ∀ e ∈ rs.reactions, e.reaction ≠ k) :
    k ∉ allReactions (some rs)
    ∧ FilterTab.kind k ∉ renderedFilterTabs (some rs) (some rc) := by
  have hk : k ∉ allReactions (some rs) := by
    simp only [allReactions]
    intro hmem
    rcases List.mem_map.1 ((mem_unique k _).1 hmem) with ⟨e, he, hek⟩
    exact hnl e he hek
  refine ⟨hk, ?_⟩
  simp only [renderedFilterTabs]
  by_cases hc : canShowFilters (some rs) (some rc) = true
  · rw [if_pos hc]
    intro hmem
    rcases List.mem_cons.1 hmem with heq | hmem2
    · exact FilterTab.noConfusion heq
    · rcases List.mem_map.1 hmem2 with ⟨a, ha, hka⟩
      injection hka with h
      exact hk (h ▸ ha)
  · rw [if_neg hc]
    simp

/-- Witness for `tabs_only_for_loaded_kinds`: thumbs-up appears in the aggregate
results but in no loaded entry, so it gets no tab. -/
theorem tabs_only_for_loaded_kinds_witness :
    ("👍" : String) ∈ exampleAggregates.results.map (fun l => l.reaction)
    ∧ (∀ e ∈ exampleReactorsTen.reactions, e.reaction ≠ "👍")
    ∧ (("👍" : String) ∉ allReactions (some exampleReactorsTen)
      ∧ FilterTab.kind "👍"
          ∉ renderedFilterTabs (some exampleReactorsTen) (some exampleAggregates)) :=
  ⟨by decide, by decide,
    tabs_only_for_loaded_kinds exampleReactorsTen exampleAggregates "👍" (by decide)
      (by decide)⟩

theorem lifecycleEffect_reactors (s : ModalState) :
    (lifecycleEffect s).reactors = s.reactors := by
  obtain ⟨a, b, o, c, t, ref, r, rc, sn⟩ := s
  cases o <;> cases c <;> simp [lifecycleEffect]

theorem lifecycleEffect_open_clears (s : ModalState)
    (h1 : (lifecycleEffect s).isOpen = true)
    (h2 : (lifecycleEffect s).isClosing = false) :
    (lifecycleEffect s).chatIdRef = none := by
  obtain ⟨a, b, o, c, t, ref, r, rc, sn⟩ := s
  cases o <;> cases c <;> simp [lifecycleEffect] at h1 h2 ⊢

/-- C3: after any event, whenever the component is in the Open configuration — open and
not closing, i.e. Open was entered or re-entered, in particular before a pending close
animation finished — the lifecycle effect has cleared the captured navigation target,
and a close-animation end fired from that configuration emits only the close
notification, never `openChat`. -/
theorem reopen_clears_pending_navigation (s : ModalState) (e : Event)
    (hopen : (step s e).1.isOpen = true)
    (hclosing : (step s e).1.isClosing = false) :
    (step s e).1.chatIdRef = none
    ∧ (step (step s e).1 Event.closeAnimationEnd).2
        = [Action.closeReactorListModal] := by
  have hc : (step s e).1.chatIdRef = none :=
    lifecycleEffect_open_clears (stepRaw s e).1 hopen hclosing
  refine ⟨hc, ?_⟩
  show closeAnimationEndActions (step s e).1 = [Action.closeReactorListModal]
  simp [closeAnimationEndActions, hc]

/-- Concrete input for the C3 witness: the overlay prop has dropped mid-close (the
lifecycle effect already stopped the closing flag) while the clicked target U2 is still
captured; the next event re-opens the overlay. -/
def exampleReenteredState : ModalState :=
  { chatId := some "c1"
    messageId := some 7
    isOpen := false
    isClosing := false
    chosenTab := none
    chatIdRef := some "U2"
    reactors := none
    reactions := none
    seenByUserIds := none }

/-- Witness for `reopen_clears_pending_navigation`: re-opening with target U2 still
captured clears it, and the eventual close-animation end emits no `openChat`. -/
theorem reopen_clears_pending_navigation_witness :
    (step exampleReenteredState (Event.setOpen true)).1.isOpen = true
    ∧ (step exampleReenteredState (Event.setOpen true)).1.isClosing = false
    ∧ ((step exampleReenteredState (Event.setOpen true)).1.chatIdRef = none
      ∧ (step (step exampleReenteredState (Event.setOpen true)).1
            Event.closeAnimationEnd).2 = [Action.closeReactorListModal]) :=
  ⟨by decide, by decide,
    reopen_clears_pending_navigation exampleReenteredState (Event.setOpen true)
      (by decide) (by decide)⟩

theorem step_preserves_reactors (s : ModalState) (e : Event)
    (he : isReceivePage e = false) : (step s e).1.reactors = s.reactors := by
  cases e
  case receivePage r => simp [isReceivePage] at he
  case selectTab t =>
    simp only [step, stepRaw, lifecycleEffect_reactors]
    split <;> rfl
  all_goals simp [step, stepRaw, lifecycleEffect_reactors]

theorem step_no_fetch_when_exhausted (s : ModalState) (r : ApiReactors)
    (hr : s.reactors = some r) (hoff : r.nextOffset = none) (e : Event) :
    (step s e).2.all (fun a => !(isLoadReactors a)) = true := by
  have hdis : infiniteScrollIsDisabled s.reactors = true := by
    simp [infiniteScrollIsDisabled, hr, hoff]
  cases e
  case closeAnimationEnd =>
    cases hcr : s.chatIdRef <;>
      simp [step, stepRaw, closeAnimationEndActions, hcr, isLoadReactors]
  case scrollNearEnd => simp [step, stepRaw, getMore, hdis]
  case mount => simp [step, stepRaw, getMore, hdis]
  all_goals simp [step, stepRaw]

/-- C5: once the reactor data in the state carries no next-page cursor, the infinite
scroll is disabled and stays so: over any further event sequence that delivers no new
page — scroll-near-end events included — no `loadReactors` fetch is ever dispatched. -/
theorem exhausted_cursor_stops_fetches (s : ModalState) (r : ApiReactors)
    (hr : s.reactors = some r) (hoff : r.nextOffset = none) (es : List Event)
    (hes : es.all (fun e => !(isReceivePage e)) = true) :
    (runEvents s es).2.all (fun a => !(isLoadReactors a)) = true := by
  revert hr hes
  induction es generalizing s with
  | nil =>
    intro hr hes
    simp [runEvents]
  | cons e es ih =>
    intro hr hes
    simp only [List.all_cons, Bool.and_eq_true] at hes
    have h2 : (step s e).1.reactors = some r := by
      rw [step_preserves_reactors s e (by simpa using hes.1), hr]
    simp only [runEvents, List.all_append, Bool.and_eq_true]
    exact ⟨step_no_fetch_when_exhausted s r hr hoff e, ih (step s e).1 h2 hes.2⟩

/-- Concrete reactor data for the C5 witness: fully loaded, no next-page cursor. -/
def exampleExhausted : ApiReactors :=
  { count := 2
    reactions := [{ userId := "U1", reaction := "❤" },
                  { userId := "U2", reaction := "👍" }]
    nextOffset := none }

/-- Concrete state for the C5 witness. -/
def exampleExhaustedState : ModalState :=
  { chatId := some "c1"
    messageId := some 7
    isOpen := true
    isClosing := false
    chosenTab := none
    chatIdRef := none
    reactors := some exampleExhausted
    reactions := none
    seenByUserIds := some ["U3"] }

/-- Witness for `exhausted_cursor_stops_fetches`: repeated scroll-near-end events after
exhaustion dispatch no fetch. -/
theorem exhausted_cursor_stops_fetches_witness :
    exampleExhaustedState.reactors = some exampleExhausted
    ∧ exampleExhausted.nextOffset = none
    ∧ ([Event.scrollNearEnd, Event.mount, Event.scrollNearEnd] : List Event).all
        (fun e => !(isReceivePage e)) = true
    ∧ (runEvents exampleExhaustedState
          [Event.scrollNearEnd, Event.mount, Event.scrollNearEnd]).2.all
        (fun a => !(isLoadReactors a)) = true :=
  ⟨rfl, rfl, by decide,
    exhausted_cursor_stops_fetches exampleExhaustedState exampleExhausted rfl rfl
      [Event.scrollNearEnd, Event.mount, Event.scrollNearEnd] (by decide)⟩

/-- C7: any sequence of filter-tab selections — choosing a kind or returning to "all" —
dispatches no action at all, in particular no `loadReactors` fetch: switching the
active filter only updates `chosenTab`, and the projection `userIds` is recomputed
purely from data already held. -/
theorem tab_switch_emits_nothing (s : ModalState) (tabs : List (Option String)) :
    (runEvents s (tabs.map Event.selectTab)).2 = [] := by
  induction tabs generalizing s with
  | nil => simp [runEvents]
  | cons t ts ih => simp [runEvents, step, stepRaw, ih]

/-- C8: the mount effect calls `getMore` with direction Backwards unconditionally, and
while no reactor page has been received the scroll is not disabled, so exactly one
`loadReactors` fetch is dispatched on first mount, whatever the rest of the state. -/
theorem initial_mount_issues_backward_fetch (s : ModalState)
    (h : s.reactors = none) :
    (step s Event.mount).2 = getMore s LoadMoreDirection.Backwards
    ∧ (step s Event.mount).2 = [Action.loadReactors s.chatId s.messageId] := by
  refine ⟨rfl, ?_⟩
  simp [step, stepRaw, getMore, infiniteScrollIsDisabled, h, handleLoadMore]

/-- Concrete state for the C8 witness: freshly opened overlay, nothing loaded yet. -/
def exampleFreshState : ModalState :=
  { chatId := some "c1"
    messageId := some 7
    isOpen := true
    isClosing := false
    chosenTab := none
    chatIdRef := none
    reactors := none
    reactions := none
    seenByUserIds := none }

/-- Witness for `initial_mount_issues_backward_fetch` on a fresh open overlay. -/
theorem initial_mount_issues_backward_fetch_witness :
    exampleFreshState.reactors = none
    ∧ ((step exampleFreshState Event.mount).2
        = getMore exampleFreshState LoadMoreDirection.Backwards
      ∧ (step exampleFreshState Event.mount).2
          = [Action.loadReactors exampleFreshState.chatId
              exampleFreshState.messageId]) :=
  ⟨rfl, initial_mount_issues_backward_fetch exampleFreshState rfl⟩

end ReactorList
